import Mathlib

/-
Verification of the PDF-ingestion and retrieval core of the chatbot POC.

The Python modules `apps/ingest.py/utils.py` (text extraction, scan
heuristic, chunking) and `chatbot_poc/apps/retrieval/llm_client.py`
(context budgeting, grounded answering) are shallowly embedded below.
Python strings are Lean `String`s (sequences of characters, so `len`,
slicing and concatenation translate to `List Char` operations on
`String.data`); Python `int` is `Int` (or `Nat` where the value is
known non-negative); a raised exception is `Except.error`; the
`while` loop of `split_text` is given explicit fuel because its
termination is exactly what is in question.
-/

namespace Chatbot

/-! ### Python string primitives -/

/-- Characters treated as whitespace by `str.strip` / `str.split`. -/
def wsChar (c : Char) : Bool := c.isWhitespace

/-- `str.strip()` on the character list: drop leading and trailing whitespace. -/
def stripList (l : List Char) : List Char :=
  ((l.dropWhile wsChar).reverse.dropWhile wsChar).reverse

/-- Python `s.strip()`. -/
def pyStrip (s : String) : String := ⟨stripList s.data⟩

/-- Helper for `str.split()`: accumulate the current word (reversed) while
scanning; whitespace runs are separators and empty words are dropped. -/
def splitWsAux : List Char → List Char → List (List Char)
  | [], cur => if cur = [] then [] else [cur.reverse]
  | c :: rest, cur =>
    if wsChar c then
      (if cur = [] then splitWsAux rest [] else cur.reverse :: splitWsAux rest [])
    else splitWsAux rest (c :: cur)

/-- Python `s.split()` (split on whitespace runs, no empty words). -/
def pyWords (s : String) : List String := (splitWsAux s.data []).map fun l => ⟨l⟩

/-- Python `s[:n]` on a string. -/
def pyTake (s : String) (n : Nat) : String := ⟨s.data.take n⟩

/-- Python `l[a:b]` on a list (with non-negative bounds). -/
def pySlice {α : Type} (l : List α) (a b : Nat) : List α := (l.take b).drop a

/-- Python `s.rfind('.')`: the index of the last period, `none` for `-1`. -/
def rfindDot (s : String) : Option Nat :=
  match s.data.reverse.findIdx? (fun c => c = '.') with
  | none => none
  | some i => some (s.data.length - 1 - i)

/-! ### split_text (apps/ingest.py/utils.py, lines 128-196) -/

/-- One iteration body of `split_text`'s while loop at cursor `start`:
returns `(chunk_text, consumed_words)`.  Python's
`int(len(candidate) * 0.3)` is modelled exactly as `3 * len / 10`
(floor); the double-precision product `len * 0.3` never rounds across
an integer boundary for any list shorter than `10^14` characters, so
the two agree on every representable input. -/
def splitStep (words : List String) (chunkSize start : Nat) : String × Nat :=
  let e := min (start + chunkSize) words.length
  let candidate := String.intercalate " " (pySlice words start e)
  match rfindDot candidate with
  | some idx =>
      if 3 * candidate.length / 10 < idx then
        let chunkText := pyStrip (pyTake candidate (idx + 1))
        let consumed := (pyWords chunkText).length
        if consumed = 0 then (candidate, e - start) else (chunkText, consumed)
      else (candidate, e - start)
  | none => (candidate, e - start)

/-- The while loop of `split_text`, with explicit fuel; `none` means the
loop had not finished after `fuel` iterations.  The advance is
`start + consumed - overlap`, with the source's guard `if start <= 0:
start = consumed_words` rendered as the `s2 ≤ overlap` test (both sides
of the Python comparison shifted by `overlap`, avoiding negatives). -/
def splitLoop (words : List String) (chunkSize overlap : Nat) :
    Nat → Nat → List String → Option (List String)
  | 0, _, _ => none
  | fuel + 1, start, acc =>
    if start < words.length then
      splitLoop words chunkSize overlap fuel
        (if start + (splitStep words chunkSize start).2 ≤ overlap
         then (splitStep words chunkSize start).2
         else start + (splitStep words chunkSize start).2 - overlap)
        (if (splitStep words chunkSize start).1 = "" then acc
         else acc ++ [(splitStep words chunkSize start).1])
    else some acc

/-- The post-pass `[c.strip() for c in chunks if c and c.strip()]`. -/
def pyFinalFilter (chunks : List String) : List String :=
  chunks.filterMap fun c => if c ≠ "" ∧ pyStrip c ≠ "" then some (pyStrip c) else none

/-- `split_text(text, chunk_size, overlap)`.  A raised `ValueError` is
`Except.error` with its message; `Except.ok none` records that the while
loop did not finish within `fuel` iterations. -/
def splitText (fuel : Nat) (text : String) (chunkSize overlap : Int) :
    Except String (Option (List String)) :=
  if text = "" then .ok (some [])
  else if pyWords (pyStrip text) = [] then .ok (some [])
  else if chunkSize ≤ 0 then .error "chunk_size must be > 0"
  else if overlap < 0 then .error "overlap must be >= 0"
  else if chunkSize ≤ overlap then .error "overlap must be smaller than chunk_size"
  else .ok ((splitLoop (pyWords (pyStrip text)) chunkSize.toNat overlap.toNat
               fuel 0 []).map pyFinalFilter)

/-! ### Page extraction and scan heuristic (apps/ingest.py/utils.py) -/

instance {ε α : Type} [DecidableEq ε] [DecidableEq α] : DecidableEq (Except ε α)
  | .error a, .error b =>
      if h : a = b then .isTrue (by rw [h]) else .isFalse (by simp [h])
  | .ok a, .ok b =>
      if h : a = b then .isTrue (by rw [h]) else .isFalse (by simp [h])
  | .error _, .ok _ => .isFalse (by simp)
  | .ok _, .error _ => .isFalse (by simp)

/-- One PDF page, abstracted at the boundary of the two external
capabilities the module uses: `sel` is the outcome of
`doc.load_page(i)` + `page.get_text()` (an exception or the raw
selectable text), `ocr` the outcome of rendering + `pytesseract`
(an exception or the raw OCR string). -/
structure Page where
  sel : Except Unit String
  ocr : Except Unit String
deriving DecidableEq

/-- `_MIN_TEXT_LENGTH_FOR_NO_OCR`. -/
def minTextLength : Nat := 50

/-- The per-page body of `extract_text_from_pdf` (lines 48-84): the text a
page contributes, `none` when it contributes nothing (load/get_text
raised, or the final text is empty). -/
def pageFinalText (p : Page) : Option String :=
  match p.sel with
  | .error _ => none
  | .ok s =>
    let t := pyStrip s
    let t2 := if t.length < minTextLength then
                match p.ocr with
                | .error _ => t
                | .ok o => if o ≠ "" then pyStrip o else t
              else t
    if t2 ≠ "" then some t2 else none

/-- `extract_text_from_pdf` after a successful `fitz.open`: join the
non-empty page texts with a blank line and strip. -/
def extractTextFromPdf (pages : List Page) : String :=
  pyStrip (String.intercalate "\n\n" (pages.filterMap pageFinalText))

/-- A page counts as OCR-needed in `is_scanned_pdf`: its load/get_text
raised, or its trimmed selectable text is below the threshold. -/
def needsOcr (p : Page) : Bool :=
  match p.sel with
  | .error _ => true
  | .ok s => decide ((pyStrip s).length < minTextLength)

/-- `is_scanned_pdf` after a successful `fitz.open`.  The float ratio
`ocr_needed_pages / total_pages > 0.30` is modelled as the exact rational
comparison (`_SCANNED_THRESHOLD_RATIO = 0.30` taken as `3/10`). -/
def isScannedPdf (pages : List Page) : Bool :=
  if pages.length = 0 then false
  else decide ((3 : ℚ) / 10 < (pages.countP needsOcr : ℚ) / (pages.length : ℚ))

/-! ### llm_client.py (chatbot_poc/apps/retrieval/llm_client.py) -/

/-- The metadata dict of a retrieved chunk; `none` models an absent key. -/
structure Meta where
  title : Option String
  doc_id : Option String
  page : Option String
deriving DecidableEq

/-- A retrieved chunk `{"content": ..., "meta": ..., "score": ...}`; an
absent or `None` score is `none`. -/
structure RChunk where
  content : String
  meta : Meta
  score : Option Int
deriving DecidableEq

/-- `_MAX_CHARS_CONTEXT = _MAX_TOKENS_CONTEXT * _APPROX_CHARS_PER_TOKEN`. -/
def maxCharsContext : Nat := 32000 * 4

/-- The marker appended to a truncated chunk content (13 characters). -/
def truncMarker : String := "\n\n[TRUNCATED]"

/-- `sum(len(c.get("content", "")) for c in l)`. -/
def sumContentLen (l : List RChunk) : Nat := (l.map fun c => c.content.length).sum

/-- The per-chunk body of `_prepare_context_chunks`'s truncation pass: the
dict is rebuilt from the `content` and `meta` keys only, so `score` is
dropped either way; over-long content keeps its prefix and gains the
marker. -/
def truncateChunk (maxCharsPerChunk : Nat) (c : RChunk) : RChunk :=
  if maxCharsPerChunk < c.content.length then
    { content := pyTake c.content maxCharsPerChunk ++ truncMarker,
      meta := c.meta, score := none }
  else
    { content := c.content, meta := c.meta, score := none }

/-- The `while total_chars > max_total_chars and truncated:` loop body,
structurally recursive on a step counter: each pass drops the last chunk,
so `l.length` steps always suffice (an empty list has total 0, which is
never over the budget, so the loop also stops there). -/
def dropUntilFitsAux (maxTotalChars : Nat) : Nat → List RChunk → List RChunk
  | 0, l => l
  | n + 1, l =>
    if sumContentLen l ≤ maxTotalChars then l
    else if l = [] then []
    else dropUntilFitsAux maxTotalChars n l.dropLast

/-- The `while total_chars > max_total_chars and truncated:` loop: drop
chunks from the end until the total fits or the list is empty. -/
def dropUntilFits (maxTotalChars : Nat) (l : List RChunk) : List RChunk :=
  dropUntilFitsAux maxTotalChars l.length l

/-- `_prepare_context_chunks(retrieved_chunks, max_total_chars, max_chunks,
max_chars_per_chunk)`. -/
def prepareContextChunks (retrieved : List RChunk)
    (maxTotalChars maxChunks maxCharsPerChunk : Nat) : List RChunk :=
  if retrieved = [] then []
  else if sumContentLen (retrieved.take maxChunks) ≤ maxTotalChars then
    retrieved.take maxChunks
  else
    dropUntilFits maxTotalChars
      ((retrieved.take maxChunks).map (truncateChunk maxCharsPerChunk))

/-- Python truthiness of `meta.get(key)`: a missing key and the empty
string are both falsy. -/
def pyTruthy (o : Option String) : Bool :=
  match o with
  | none => false
  | some s => decide (s ≠ "")

/-- The per-chunk sources entry of `generate_answer` (lines 157-168):
title if truthy, else doc id if truthy, else `"unknown"`. -/
def resolveSource (c : RChunk) : String :=
  if pyTruthy c.meta.title then c.meta.title.getD ""
  else if pyTruthy c.meta.doc_id then c.meta.doc_id.getD ""
  else "unknown"

/-- `_build_prompt_system()` (after the `textwrap.dedent(...).strip()`). -/
def buildPromptSystem : String :=
  "You are an assistant that MUST answer using ONLY the provided document excerpts.\nImportant rules (follow exactly):\n1. You are RESTRICTED to using ONLY the information contained in the provided document excerpts.\n   Do NOT use external knowledge, world knowledge, or make assumptions.\n2. If the answer cannot be found in the provided excerpts, respond exactly with:\n   \"Answer not found in provided documents.\"\n   (Do NOT provide any other text or attempt to guess or hallucinate.)\n3. When you provide an answer, include a short \"SOURCES:\" section listing the document titles or IDs\n   that you used (from the provided metadata). If you used multiple excerpts, list them comma-separated.\n4. Keep the answer concise and focused on the user's question.\n5. If the question is ambiguous and the answer is present in documents only for one plausible interpretation,\n   answer based on the document evidence and do not invent clarifying assumptions.\n6. If the documents contain contradictory information, indicate that the documents disagree and cite the sources."

/-- The `meta_str` of one excerpt header in `_build_user_prompt`: the
present metadata keys, else a bare `chunk_index`. -/
def metaSummary (i : Nat) (m : Meta) : String :=
  let parts :=
    (match m.title with | some t => ["title=" ++ t] | none => []) ++
    (match m.doc_id with | some d => ["doc_id=" ++ d] | none => []) ++
    (match m.page with | some p => ["page=" ++ p] | none => [])
  if parts = [] then "chunk_index=" ++ toString i else String.intercalate ", " parts

/-- The three lines each excerpt contributes to the user prompt,
enumerated from `i` (the source enumerates from 1). -/
def excerptLines : Nat → List RChunk → List String
  | _, [] => []
  | i, c :: rest =>
    ("--- EXCERPT " ++ toString i ++ " | " ++ metaSummary i c.meta ++ " ---") ::
    c.content :: "" :: excerptLines (i + 1) rest

/-- `_build_user_prompt(query, context_chunks)`. -/
def buildUserPrompt (query : String) (ctx : List RChunk) : String :=
  String.intercalate "\n"
    (["DOCUMENT EXCERPTS (use ONLY these to answer):"] ++ excerptLines 1 ctx ++
     ["END OF EXCERPTS", "", "USER QUESTION:", query, "",
      "INSTRUCTIONS: Answer using ONLY the excerpts above. If the answer is not present, EXACTLY respond: \"Answer not found in provided documents.\""])

/-- The environment `generate_answer` runs against: the value of
`OPENAI_API_KEY` (absent is `none`), whether `import openai` succeeds,
and the outcome of the remote chat-completion call (the extracted
message content, or the exception's message). -/
structure GenEnv where
  apiKey : Option String
  importOk : Bool
  callResult : Except String String

/-- The result dict of `generate_answer`; dicts without an `"error"` key
have `error := none`. -/
structure AnswerResult where
  answer : String
  sources : List String
  model : String
  error : Option String
deriving DecidableEq

/-- `"\n\n---\n\n".join(c.get("content", "") for c in ctx)`. -/
def joinContents (ctx : List RChunk) : String :=
  String.intercalate "\n\n---\n\n" (ctx.map fun c => c.content)

/-- Python's `s or "No context available."`. -/
def orNoContext (s : String) : String :=
  if s = "" then "No context available." else s

/-- The context chunks whose contents the fallback paths of
`generate_answer` concatenate: the default budget, except that with a
configured key an oversized combined prompt triggers one re-budgeting
pass (half budget, 3 chunks, 1000 characters each). -/
def contextUsed (env : GenEnv) (query : String) (retrieved : List RChunk) :
    List RChunk :=
  if pyTruthy env.apiKey = false then
    prepareContextChunks retrieved maxCharsContext 10 4000
  else if maxCharsContext < buildPromptSystem.length +
      (buildUserPrompt query
        (prepareContextChunks retrieved maxCharsContext 10 4000)).length then
    prepareContextChunks retrieved (maxCharsContext / 2) 3 1000
  else prepareContextChunks retrieved maxCharsContext 10 4000

/-- `generate_answer(query, retrieved_chunks, model)` (lines 137-230).
The sources list is built first, from all retrieved chunks, and is the
same in every branch. -/
def generateAnswer (env : GenEnv) (query : String) (retrieved : List RChunk)
    (model : String) : AnswerResult :=
  if pyTruthy env.apiKey = false then
    { answer := "LLM not configured. Returning top document excerpts concatenated below.\n\n"
        ++ orNoContext (joinContents (contextUsed env query retrieved)),
      sources := retrieved.map resolveSource, model := "fallback", error := none }
  else if env.importOk = false then
    { answer := "OpenAI client library not available. Returning concatenated excerpts.\n\n"
        ++ orNoContext (joinContents (contextUsed env query retrieved)),
      sources := retrieved.map resolveSource, model := "fallback", error := none }
  else
    match env.callResult with
    | .ok text =>
      { answer := pyStrip text, sources := retrieved.map resolveSource,
        model := model, error := none }
    | .error e =>
      { answer := "OpenAI API call failed. Returning concatenated excerpts.\n\n"
          ++ orNoContext (joinContents (contextUsed env query retrieved)),
        sources := retrieved.map resolveSource, model := "fallback", error := some e }

/-- The fixed explanatory line opening each of the three fallback answers. -/
def fallbackHeader (env : GenEnv) : String :=
  if pyTruthy env.apiKey = false then
    "LLM not configured. Returning top document excerpts concatenated below.\n\n"
  else if env.importOk = false then
    "OpenAI client library not available. Returning concatenated excerpts.\n\n"
  else
    "OpenAI API call failed. Returning concatenated excerpts.\n\n"

/-- The generation capability is unavailable: no truthy credential, or the
client library cannot be imported, or the remote call raises. -/
def generationUnavailable (env : GenEnv) : Prop :=
  pyTruthy env.apiKey = false ∨ env.importOk = false ∨ ∃ e, env.callResult = .error e

/-- `pat` occurs as a contiguous substring of `s`. -/
def containsSub (s pat : String) : Prop := ∃ a b, s = a ++ pat ++ b

/-! ## Lemmas and claim theorems -/

/-- On the five-word input `"a b c x y"` with `chunk_size = 3` and
`overlap = 2`, the cursor is stuck at 3: the final window `"x y"`
consumes 2 words, the advance `3 + 2 - 2 = 3` is positive (so the
non-progress guard does not fire) yet below the word count 5. -/
lemma splitLoop_stuck_three (fuel : Nat) :
    ∀ acc, splitLoop ["a", "b", "c", "x", "y"] 3 2 fuel 3 acc = none := by
  induction fuel with
  | zero => intro acc; rfl
  | succ n ih =>
    intro acc
    have h : splitLoop ["a", "b", "c", "x", "y"] 3 2 (n + 1) 3 acc =
        splitLoop ["a", "b", "c", "x", "y"] 3 2 n 3 (acc ++ ["x y"]) := rfl
    rw [h]
    exact ih _

lemma splitLoop_stuck_two (fuel : Nat) :
    ∀ acc, splitLoop ["a", "b", "c", "x", "y"] 3 2 fuel 2 acc = none := by
  cases fuel with
  | zero => intro acc; rfl
  | succ n =>
    intro acc
    have h : splitLoop ["a", "b", "c", "x", "y"] 3 2 (n + 1) 2 acc =
        splitLoop ["a", "b", "c", "x", "y"] 3 2 n 3 (acc ++ ["c x y"]) := rfl
    rw [h]
    exact splitLoop_stuck_three n _

lemma splitLoop_stuck_one (fuel : Nat) :
    ∀ acc, splitLoop ["a", "b", "c", "x", "y"] 3 2 fuel 1 acc = none := by
  cases fuel with
  | zero => intro acc; rfl
  | succ n =>
    intro acc
    have h : splitLoop ["a", "b", "c", "x", "y"] 3 2 (n + 1) 1 acc =
        splitLoop ["a", "b", "c", "x", "y"] 3 2 n 2 (acc ++ ["b c x"]) := rfl
    rw [h]
    exact splitLoop_stuck_two n _

lemma splitLoop_stuck_zero (fuel : Nat) :
    ∀ acc, splitLoop ["a", "b", "c", "x", "y"] 3 2 fuel 0 acc = none := by
  cases fuel with
  | zero => intro acc; rfl
  | succ n =>
    intro acc
    have h : splitLoop ["a", "b", "c", "x", "y"] 3 2 (n + 1) 0 acc =
        splitLoop ["a", "b", "c", "x", "y"] 3 2 n 1 (acc ++ ["a b c"]) := rfl
    rw [h]
    exact splitLoop_stuck_one n _

/-- C1: refuted — `split_text` does NOT terminate on every valid input.
On `split_text("a b c x y", chunk_size=3, overlap=2)` (valid parameters:
`3 > 0`, `0 ≤ 2 < 3`) the while loop runs forever: no matter how much
fuel the loop is given, it never returns.  The guard compares the new
absolute cursor against 0, not against the prior position, so once the
cursor reaches 3 the advance `3 + 2 - 2 = 3` repeats identically. -/
theorem c1_split_text_nonterminating (fuel : Nat) :
    splitText fuel "a b c x y" 3 2 = Except.ok none := by
  show Except.ok ((splitLoop ["a", "b", "c", "x", "y"] 3 2 fuel 0 []).map
    pyFinalFilter) = Except.ok none
  rw [splitLoop_stuck_zero fuel []]
  rfl

/-- The head surviving a `dropWhile` does not satisfy the predicate. -/
lemma dropWhile_head_false {α : Type} {p : α → Bool} :
    ∀ {l : List α} {c : α} {t : List α}, l.dropWhile p = c :: t → p c = false := by
  intro l
  induction l with
  | nil => intro c t h; simp [List.dropWhile] at h
  | cons a l' ih =>
    intro c t h
    rw [List.dropWhile_cons] at h
    by_cases hp : p a = true
    · rw [if_pos hp] at h
      exact ih h
    · rw [if_neg hp] at h
      cases h
      exact Bool.eq_false_iff.mpr hp

/-- If stripping empties a character list, every character was whitespace. -/
lemma all_ws_of_stripList_eq_nil {l : List Char} (h : stripList l = []) :
    ∀ c ∈ l, wsChar c = true := by
  unfold stripList at h
  rw [List.reverse_eq_nil_iff] at h
  have h2 : ∀ c ∈ (l.dropWhile wsChar).reverse, wsChar c = true :=
    List.dropWhile_eq_nil_iff.mp h
  have h3 : ∀ c ∈ l.dropWhile wsChar, wsChar c = true := by
    intro c hc
    exact h2 c (List.mem_reverse.mpr hc)
  intro c hc
  rw [← List.takeWhile_append_dropWhile wsChar l] at hc
  rcases List.mem_append.mp hc with h4 | h4
  · exact List.mem_takeWhile_imp h4
  · exact h3 c h4

/-- A character list containing a non-whitespace character does not strip
to empty. -/
lemma stripList_ne_nil_of_mem {l : List Char} {c : Char} (hc : c ∈ l)
    (hw : wsChar c = false) : stripList l ≠ [] := by
  intro h
  rw [all_ws_of_stripList_eq_nil h c hc] at hw
  exact Bool.noConfusion hw

/-- A non-empty stripped list contains a non-whitespace character (its
last character, the head before the final reversal). -/
lemma exists_nonws_of_stripList_ne_nil {l : List Char}
    (h : stripList l ≠ []) : ∃ c ∈ stripList l, wsChar c = false := by
  have h2 : (l.dropWhile wsChar).reverse.dropWhile wsChar ≠ [] := by
    intro h3
    apply h
    unfold stripList
    rw [h3]
    rfl
  obtain ⟨c, t, hct⟩ := List.exists_cons_of_ne_nil h2
  refine ⟨c, ?_, dropWhile_head_false hct⟩
  unfold stripList
  rw [hct]
  exact List.mem_reverse.mpr (List.mem_cons_self c t)

/-- Stripping an already-stripped non-empty string leaves it non-empty. -/
lemma pyStrip_pyStrip_ne_empty {s : String} (h : pyStrip s ≠ "") :
    pyStrip (pyStrip s) ≠ "" := by
  have hd : stripList s.data ≠ [] := by
    intro h2
    apply h
    exact congrArg String.mk h2
  obtain ⟨c, hc, hw⟩ := exists_nonws_of_stripList_ne_nil hd
  have h3 : stripList (stripList s.data) ≠ [] := stripList_ne_nil_of_mem hc hw
  intro h4
  exact h3 (congrArg String.data h4)

/-- Every chunk surviving the post-pass of `split_text` is non-empty and
still non-empty after trimming. -/
lemma pyFinalFilter_mem {l : List String} {c : String}
    (hc : c ∈ pyFinalFilter l) : c ≠ "" ∧ pyStrip c ≠ "" := by
  unfold pyFinalFilter at hc
  obtain ⟨a, _, ha⟩ := List.mem_filterMap.mp hc
  by_cases hcond : a ≠ "" ∧ pyStrip a ≠ ""
  · rw [if_pos hcond] at ha
    cases ha
    exact ⟨hcond.2, pyStrip_pyStrip_ne_empty hcond.2⟩
  · rw [if_neg hcond] at ha
    cases ha

/-- C2: whenever `split_text` returns (with any fuel for its loop), every
chunk in the returned sequence is non-empty and non-empty after trimming
(so no empty or whitespace-only chunk appears), and an empty or
whitespace-only input text yields the empty sequence. -/
theorem c2_split_text_chunks_nonempty (fuel : Nat) (text : String)
    (chunkSize overlap : Int) (res : List String)
    (h : splitText fuel text chunkSize overlap = Except.ok (some res)) :
    (∀ c ∈ res, c ≠ "" ∧ pyStrip c ≠ "") ∧ (pyStrip text = "" → res = []) := by
  unfold splitText at h
  by_cases h1 : text = ""
  · rw [if_pos h1] at h
    injection h with h'
    injection h' with h''
    subst h''
    exact ⟨(fun c hc => absurd hc (by simp)), fun _ => rfl⟩
  rw [if_neg h1] at h
  by_cases h2 : pyWords (pyStrip text) = []
  · rw [if_pos h2] at h
    injection h with h'
    injection h' with h''
    subst h''
    exact ⟨(fun c hc => absurd hc (by simp)), fun _ => rfl⟩
  rw [if_neg h2] at h
  by_cases h3 : chunkSize ≤ 0
  · rw [if_pos h3] at h; exact Except.noConfusion h
  rw [if_neg h3] at h
  by_cases h4 : overlap < 0
  · rw [if_pos h4] at h; exact Except.noConfusion h
  rw [if_neg h4] at h
  by_cases h5 : chunkSize ≤ overlap
  · rw [if_pos h5] at h; exact Except.noConfusion h
  rw [if_neg h5] at h
  have h6 : (splitLoop (pyWords (pyStrip text)) chunkSize.toNat overlap.toNat
      fuel 0 []).map pyFinalFilter = some res := by
    injection h
  obtain ⟨raw, _, hraw⟩ := Option.map_eq_some'.mp h6
  constructor
  · intro c hc
    rw [← hraw] at hc
    exact pyFinalFilter_mem hc
  · intro h7
    exfalso
    apply h2
    rw [h7]
    rfl

/-- Witness for C2 at a concrete input: `split_text("hello world", 2, 0)`
returns `["hello world"]`, whose sole chunk is non-empty after trimming. -/
theorem c2_split_text_chunks_nonempty_witness :
    (∀ c ∈ ["hello world"], c ≠ "" ∧ pyStrip c ≠ "") ∧
      (pyStrip "hello world" = "" → ["hello world"] = []) :=
  c2_split_text_chunks_nonempty 5 "hello world" 2 0 ["hello world"] (by decide)

/-- C3: refuted — an empty input text is answered with an empty chunk list
BEFORE the parameters are validated, so `split_text("", chunk_size=0,
overlap=5)` (both parameters invalid) returns `[]` instead of raising
`ValueError`. -/
theorem c3_empty_text_skips_validation :
    splitText 0 "" 0 5 = Except.ok (some []) := by decide

/-- C3 (amended): when the trimmed input text splits into at least one
word, `split_text` rejects `chunk_size <= 0`, `overlap < 0` and
`overlap >= chunk_size` with a `ValueError` before any chunking work. -/
theorem c3_invalid_parameters_rejected (fuel : Nat) (text : String)
    (chunkSize overlap : Int) (hw : pyWords (pyStrip text) ≠ [])
    (hbad : chunkSize ≤ 0 ∨ overlap < 0 ∨ chunkSize ≤ overlap) :
    ∃ e, splitText fuel text chunkSize overlap = Except.error e := by
  have h1 : text ≠ "" := by
    intro h
    apply hw
    rw [h]
    rfl
  unfold splitText
  rw [if_neg h1, if_neg hw]
  by_cases h3 : chunkSize ≤ 0
  · rw [if_pos h3]
    exact ⟨_, rfl⟩
  rw [if_neg h3]
  by_cases h4 : overlap < 0
  · rw [if_pos h4]
    exact ⟨_, rfl⟩
  rw [if_neg h4]
  by_cases h5 : chunkSize ≤ overlap
  · rw [if_pos h5]
    exact ⟨_, rfl⟩
  exact absurd hbad (by simp [h3, h4, h5])

/-- Witness for the amended C3: `split_text("a", 0, 0)` raises. -/
theorem c3_invalid_parameters_rejected_witness :
    ∃ e, splitText 0 "a" 0 0 = Except.error e :=
  c3_invalid_parameters_rejected 0 "a" 0 0 (by decide) (Or.inl (by decide))

/-- C4: refuted — a page whose OCR output is non-empty but whitespace-only
does NOT keep its short selectable text.  For selectable text `"abc"`
(trimmed length 3 < 50) and OCR output `"   "` (which trims to empty),
the code takes the truthy branch `if ocr_text:`, replaces the page text
with the stripped OCR output `""`, and the page then contributes nothing
instead of keeping `"abc"`. -/
theorem c4_whitespace_ocr_discards_page_text :
    (pyStrip "abc").length < minTextLength ∧ pyStrip "   " = "" ∧
      pageFinalText ⟨Except.ok "abc", Except.ok "   "⟩ = none ∧
      pageFinalText ⟨Except.ok "abc", Except.ok "   "⟩ ≠ some "abc" := by decide

/-- C4 (amended): for a page whose trimmed selectable text is below the
threshold, the final text is the trimmed OCR output whenever the RAW OCR
output is non-empty and trims non-empty; a raw-but-whitespace-only OCR
output wipes the page (it contributes nothing); and only when the raw
OCR output is the empty string, or the OCR step raises, does the page
keep its trimmed selectable text (contributing nothing if that is
empty). -/
theorem c4_page_ocr_fallback (s o : String) (e : Unit)
    (hshort : (pyStrip s).length < minTextLength) :
    (pyStrip o ≠ "" → pageFinalText ⟨Except.ok s, Except.ok o⟩ = some (pyStrip o))
    ∧ (o ≠ "" → pyStrip o = "" → pageFinalText ⟨Except.ok s, Except.ok o⟩ = none)
    ∧ (pageFinalText ⟨Except.ok s, Except.ok ""⟩ =
        if pyStrip s = "" then none else some (pyStrip s))
    ∧ (pageFinalText ⟨Except.ok s, Except.error e⟩ =
        if pyStrip s = "" then none else some (pyStrip s)) := by
  refine ⟨?_, ?_, ?_, ?_⟩
  · intro h1
    have ho : o ≠ "" := by
      intro he
      apply h1
      rw [he]
      rfl
    simp only [pageFinalText]
    rw [if_pos hshort, if_pos ho, if_pos h1]
  · intro ho h0
    simp only [pageFinalText]
    rw [if_pos hshort, if_pos ho, h0]
    simp
  · simp only [pageFinalText]
    rw [if_pos hshort]
    simp only [ne_eq, not_true_eq_false, if_false]
    by_cases hs : pyStrip s = ""
    · rw [if_pos hs, hs]
      simp
    · rw [if_neg hs, if_pos hs]
  · simp only [pageFinalText]
    rw [if_pos hshort]
    by_cases hs : pyStrip s = ""
    · rw [if_pos hs, hs]
      simp
    · rw [if_neg hs, if_pos hs]

/-- Witness for the amended C4: a short page with a real OCR result is
replaced by the trimmed OCR text. -/
theorem c4_page_ocr_fallback_witness :
    pageFinalText ⟨Except.ok "abc", Except.ok " real ocr text "⟩ =
      some "real ocr text" := by
  have h := (c4_page_ocr_fallback "abc" " real ocr text " () (by decide)).1 (by decide)
  exact h.trans (by decide)

/-- C9: `is_scanned_pdf` returns true exactly when the pages needing OCR
(trimmed selectable text below the threshold, or an error while reading
the page) are more than 30% of all pages (the float ratio comparison is
exact rational arithmetic here); a zero-page document yields false; and
the result never depends on the OCR capability (replacing every page's
OCR outcome arbitrarily changes nothing). -/
theorem c9_is_scanned_pdf_ratio (pages : List Page) :
    (isScannedPdf pages = true ↔
      pages ≠ [] ∧ 3 * pages.length < 10 * pages.countP needsOcr)
    ∧ (pages = [] → isScannedPdf pages = false)
    ∧ (∀ f : Page → Except Unit String,
        isScannedPdf (pages.map fun p => ⟨p.sel, f p⟩) = isScannedPdf pages) := by
  refine ⟨?_, ?_, ?_⟩
  · unfold isScannedPdf
    by_cases h : pages.length = 0
    · rw [if_pos h]
      have h2 : pages = [] := List.length_eq_zero.mp h
      simp [h2]
    · rw [if_neg h]
      have ht : 0 < pages.length := Nat.pos_of_ne_zero h
      have hne : pages ≠ [] := by
        intro h2
        rw [h2] at h
        exact h rfl
      rw [decide_eq_true_eq]
      rw [div_lt_div_iff₀ (by norm_num) (by exact_mod_cast ht)]
      constructor
      · intro h2
        refine ⟨hne, ?_⟩
        have h3 : (3 * pages.length : ℚ) < 10 * pages.countP needsOcr := by
          linarith
        exact_mod_cast h3
      · intro h2
        have h3 : ((3 * pages.length : ℕ) : ℚ) < ((10 * pages.countP needsOcr : ℕ) : ℚ) := by
          exact_mod_cast h2.2
        push_cast at h3
        linarith
  · intro h
    rw [h]
    rfl
  · intro f
    unfold isScannedPdf
    have hcount : (pages.map fun p => Page.mk p.sel (f p)).countP needsOcr =
        pages.countP needsOcr := by
      rw [List.countP_map]
      apply List.countP_congr
      intro p _
      cases hp : p.sel with
      | ok s => simp [Function.comp, needsOcr, hp]
      | error u => simp [Function.comp, needsOcr, hp]
    rw [List.length_map, hcount]

/-- Witness for C9 at a concrete input: a single unreadable page makes the
ratio 1/1 > 0.30, so the document is classified as scanned. -/
theorem c9_is_scanned_pdf_ratio_witness :
    isScannedPdf [⟨Except.error (), Except.ok ""⟩] = true :=
  (c9_is_scanned_pdf_ratio [⟨Except.error (), Except.ok ""⟩]).1.mpr
    ⟨by decide, by decide⟩

lemma truncateChunk_meta (mp : Nat) (c : RChunk) :
    (truncateChunk mp c).meta = c.meta := by
  unfold truncateChunk
  split <;> rfl

lemma truncateChunk_score (mp : Nat) (c : RChunk) :
    (truncateChunk mp c).score = none := by
  unfold truncateChunk
  split <;> rfl

/-- A truncated chunk's content is at most the per-chunk cap PLUS the
13-character marker (the marker is appended after cutting to the cap). -/
lemma truncateChunk_length (mp : Nat) (c : RChunk) :
    (truncateChunk mp c).content.length ≤ mp + truncMarker.length := by
  unfold truncateChunk
  by_cases h : mp < c.content.length
  · rw [if_pos h]
    show (String.mk (c.content.data.take mp) ++ truncMarker).length ≤
      mp + truncMarker.length
    rw [String.length_append]
    have h2 : (String.mk (c.content.data.take mp)).length ≤ mp :=
      List.length_take_le mp c.content.data
    omega
  · rw [if_neg h]
    show c.content.length ≤ mp + truncMarker.length
    omega

/-- The end-dropping loop always lands within the budget (the empty list
has total 0). -/
lemma dropUntilFitsAux_sum_le (t : Nat) :
    ∀ (n : Nat) (l : List RChunk), l.length ≤ n →
      sumContentLen (dropUntilFitsAux t n l) ≤ t := by
  intro n
  induction n with
  | zero =>
    intro l hl
    have h : l = [] := List.length_eq_zero.mp (Nat.le_zero.mp hl)
    subst h
    exact Nat.zero_le t
  | succ n ih =>
    intro l hl
    rw [dropUntilFitsAux]
    by_cases hle : sumContentLen l ≤ t
    · rw [if_pos hle]
      exact hle
    rw [if_neg hle]
    by_cases hnil : l = []
    · rw [if_pos hnil]
      exact Nat.zero_le t
    rw [if_neg hnil]
    apply ih
    have h2 : l.length ≠ 0 := by
      intro h3
      exact hnil (List.length_eq_zero.mp h3)
    rw [List.length_dropLast]
    omega

lemma dropUntilFits_sum_le (t : Nat) (l : List RChunk) :
    sumContentLen (dropUntilFits t l) ≤ t :=
  dropUntilFitsAux_sum_le t l.length l le_rfl

/-- The end-dropping loop only removes a suffix: its result is a front
segment of its input. -/
lemma dropUntilFitsAux_eq_take (t : Nat) :
    ∀ (n : Nat) (l : List RChunk), ∃ k, dropUntilFitsAux t n l = l.take k := by
  intro n
  induction n with
  | zero =>
    intro l
    exact ⟨l.length, (List.take_length l).symm⟩
  | succ n ih =>
    intro l
    rw [dropUntilFitsAux]
    by_cases hle : sumContentLen l ≤ t
    · rw [if_pos hle]
      exact ⟨l.length, (List.take_length l).symm⟩
    rw [if_neg hle]
    by_cases hnil : l = []
    · rw [if_pos hnil]
      exact ⟨0, by rw [hnil]; rfl⟩
    rw [if_neg hnil]
    obtain ⟨k, hk⟩ := ih l.dropLast
    refine ⟨min k (l.length - 1), ?_⟩
    rw [hk, List.dropLast_eq_take, List.take_take]

lemma dropUntilFits_eq_take (t : Nat) (l : List RChunk) :
    ∃ k, dropUntilFits t l = l.take k :=
  dropUntilFitsAux_eq_take t l.length l

/-- A front segment maps to the corresponding front segment: used to push
`map` through the budgeter's `take`s. -/
lemma map_front {α β : Type} (f : α → β) (B : List α) (k : Nat) :
    (B.take k).map f = (B.map f).take ((B.take k).length) := by
  rw [List.map_take, List.take_eq_take]
  simp only [List.length_take, List.length_map]
  rw [Nat.min_assoc, Nat.min_self]

/-- C5: the budgeter returns at most `max_chunks` chunks, their total
content length never exceeds `max_total_chars`, and they correspond, in
order, to the first chunks of the input (their metadata list is a front
segment of the input's metadata list). -/
theorem c5_budgeter_bounds (chunks : List RChunk) (mt mc mp : Nat) :
    (prepareContextChunks chunks mt mc mp).length ≤ mc
    ∧ sumContentLen (prepareContextChunks chunks mt mc mp) ≤ mt
    ∧ (prepareContextChunks chunks mt mc mp).map RChunk.meta =
        (chunks.map RChunk.meta).take
          (prepareContextChunks chunks mt mc mp).length := by
  unfold prepareContextChunks
  by_cases h0 : chunks = []
  · rw [if_pos h0]
    subst h0
    exact ⟨Nat.zero_le mc, Nat.zero_le mt, rfl⟩
  rw [if_neg h0]
  by_cases h1 : sumContentLen (chunks.take mc) ≤ mt
  · rw [if_pos h1]
    exact ⟨List.length_take_le mc chunks, h1, map_front RChunk.meta chunks mc⟩
  · rw [if_neg h1]
    obtain ⟨k, hk⟩ := dropUntilFits_eq_take mt ((chunks.take mc).map (truncateChunk mp))
    have hcomp : RChunk.meta ∘ truncateChunk mp = RChunk.meta := by
      funext c
      exact truncateChunk_meta mp c
    have hlen : ((((chunks.take mc).map (truncateChunk mp)).take k)).length ≤
        (chunks.take mc).length := by
      simp only [List.length_take, List.length_map]
      exact Nat.min_le_right _ _
    refine ⟨?_, ?_, ?_⟩
    · rw [hk]
      exact le_trans hlen (List.length_take_le mc chunks)
    · exact dropUntilFits_sum_le mt _
    · rw [hk]
      rw [map_front RChunk.meta ((chunks.take mc).map (truncateChunk mp)) k]
      rw [List.map_map, hcomp]
      rw [map_front RChunk.meta chunks mc]
      rw [List.take_take]
      rw [Nat.min_eq_left hlen]

/-- C6: refuted — inside the truncation path a surviving over-long chunk's
content has length `max_chars_per_chunk + 13`, not at most
`max_chars_per_chunk`: with one 30-character chunk, `max_total_chars =
20` and `max_chars_per_chunk = 1`, the returned content is the
1-character prefix plus the 13-character marker. -/
theorem c6_truncated_chunk_exceeds_cap :
    (List.getD
        (prepareContextChunks
          [⟨"aaaaaaaaaaaaaaaaaaaaaaaaaaaaaa", ⟨none, none, none⟩, none⟩] 20 1 1)
        0 ⟨"", ⟨none, none, none⟩, none⟩).content.length = 14
    ∧ ¬ (List.getD
        (prepareContextChunks
          [⟨"aaaaaaaaaaaaaaaaaaaaaaaaaaaaaa", ⟨none, none, none⟩, none⟩] 20 1 1)
        0 ⟨"", ⟨none, none, none⟩, none⟩).content.length ≤ 1 := by decide

/-- C6 (amended): in the truncation path every returned chunk's content is
at most `max_chars_per_chunk` plus the 13-character truncation marker;
each returned chunk corresponds to a selected input chunk with metadata
preserved, keeping its content unchanged when it was within the cap and
otherwise the cap-length prefix with the marker appended. -/
theorem c6_truncation_shape (chunks : List RChunk) (mt mc mp : Nat)
    (h : mt < sumContentLen (chunks.take mc)) :
    ∀ c ∈ prepareContextChunks chunks mt mc mp,
      c.content.length ≤ mp + truncMarker.length
      ∧ ∃ c₀ ∈ chunks.take mc, c.meta = c₀.meta ∧
          (if mp < c₀.content.length
           then c.content = pyTake c₀.content mp ++ truncMarker
           else c.content = c₀.content) := by
  have h0 : chunks ≠ [] := by
    intro h1
    rw [h1] at h
    exact absurd h (by simp [sumContentLen])
  intro c hc
  unfold prepareContextChunks at hc
  rw [if_neg h0, if_neg (by omega)] at hc
  obtain ⟨k, hk⟩ := dropUntilFits_eq_take mt ((chunks.take mc).map (truncateChunk mp))
  rw [hk] at hc
  have hc2 : c ∈ (chunks.take mc).map (truncateChunk mp) :=
    List.take_subset k _ hc
  obtain ⟨c₀, hc₀, hcc⟩ := List.mem_map.mp hc2
  subst hcc
  refine ⟨truncateChunk_length mp c₀, c₀, hc₀, truncateChunk_meta mp c₀, ?_⟩
  unfold truncateChunk
  by_cases h2 : mp < c₀.content.length
  · rw [if_pos h2, if_pos h2]
  · rw [if_neg h2, if_neg h2]

/-- Witness for the amended C6 at a concrete input: the truncation path is
entered (total 30 > 20) and the single surviving chunk keeps the
original metadata with the capped-plus-marker content. -/
theorem c6_truncation_shape_witness :
    (List.getD
        (prepareContextChunks
          [⟨"aaaaaaaaaaaaaaaaaaaaaaaaaaaaaa", ⟨some "t", none, none⟩, none⟩] 20 1 1)
        0 ⟨"", ⟨none, none, none⟩, none⟩).content.length ≤ 1 + truncMarker.length :=
  ((c6_truncation_shape
      [⟨"aaaaaaaaaaaaaaaaaaaaaaaaaaaaaa", ⟨some "t", none, none⟩, none⟩] 20 1 1
      (by decide)) _ (by decide)).1

/-- C10: the two return paths of `_prepare_context_chunks` differ in
shape — when the selection already fits the budget the input chunk
records are returned unchanged (`score` and all), but once truncation
occurs every returned chunk was rebuilt from `content` and `meta` only,
so its `score` is `none`. -/
theorem c10_budgeter_score_asymmetry (chunks : List RChunk) (mt mc mp : Nat) :
    (sumContentLen (chunks.take mc) ≤ mt →
      prepareContextChunks chunks mt mc mp = chunks.take mc)
    ∧ (mt < sumContentLen (chunks.take mc) →
      ∀ c ∈ prepareContextChunks chunks mt mc mp, c.score = none) := by
  constructor
  · intro h1
    unfold prepareContextChunks
    by_cases h0 : chunks = []
    · rw [if_pos h0]
      subst h0
      rw [List.take_nil]
    · rw [if_neg h0, if_pos h1]
  · intro h1 c hc
    have h0 : chunks ≠ [] := by
      intro h2
      rw [h2] at h1
      exact absurd h1 (by simp [sumContentLen])
    unfold prepareContextChunks at hc
    rw [if_neg h0, if_neg (by omega)] at hc
    obtain ⟨k, hk⟩ := dropUntilFits_eq_take mt ((chunks.take mc).map (truncateChunk mp))
    rw [hk] at hc
    obtain ⟨c₀, _, hcc⟩ := List.mem_map.mp (List.take_subset k _ hc)
    rw [← hcc]
    exact truncateChunk_score mp c₀

/-- Witness for C10: a fitting selection is returned unchanged with its
score intact, and the truncation path at another input yields a chunk
whose score has been dropped. -/
theorem c10_budgeter_score_asymmetry_witness :
    prepareContextChunks [⟨"abc", ⟨none, none, none⟩, some 5⟩] 100 10 1 =
      [⟨"abc", ⟨none, none, none⟩, some 5⟩].take 10
    ∧ (List.getD
        (prepareContextChunks
          [⟨"aaaaaaaaaaaaaaaaaaaaaaaaaaaaaa", ⟨none, none, none⟩, some 7⟩] 20 1 1)
        0 ⟨"x", ⟨none, none, none⟩, some 9⟩).score = none :=
  ⟨(c10_budgeter_score_asymmetry [⟨"abc", ⟨none, none, none⟩, some 5⟩] 100 10 1).1
      (by decide),
   (c10_budgeter_score_asymmetry
      [⟨"aaaaaaaaaaaaaaaaaaaaaaaaaaaaaa", ⟨none, none, none⟩, some 7⟩] 20 1 1).2
      (by decide) _ (by decide)⟩

/-- C7: for every environment (credential present or absent, client
importable or not, remote call succeeding or failing), the sources list
of `generate_answer` has exactly one entry per input retrieved chunk, in
order, each resolved by `resolveSource` (truthy title, else truthy doc
id, else `"unknown"`) — independent of budgeting and truncation. -/
theorem c7_sources_one_per_chunk (env : GenEnv) (query : String)
    (chunks : List RChunk) (model : String) :
    (generateAnswer env query chunks model).sources.length = chunks.length
    ∧ (generateAnswer env query chunks model).sources =
        chunks.map resolveSource := by
  have h : (generateAnswer env query chunks model).sources =
      chunks.map resolveSource := by
    unfold generateAnswer
    by_cases h1 : pyTruthy env.apiKey = false
    · rw [if_pos h1]
    rw [if_neg h1]
    by_cases h2 : env.importOk = false
    · rw [if_pos h2]
    rw [if_neg h2]
    cases hc : env.callResult with
    | ok t => rfl
    | error e => rfl
  exact ⟨by rw [h, List.length_map], h⟩

/-- C8: refuted on one point — when the budgeted list is non-empty but
every budgeted content is empty, the joined contents are the empty
string, and Python's `or` swaps in `"No context available."`; the answer
is then NOT the fixed prefix followed by the joined chunk contents.  A
single retrieved chunk with content `""` (no credential configured)
shows the divergence. -/
theorem c8_empty_content_not_plain_concatenation :
    (generateAnswer ⟨none, true, Except.ok "x"⟩ "q"
        [⟨"", ⟨none, none, none⟩, none⟩] "m").answer =
      "LLM not configured. Returning top document excerpts concatenated below.\n\nNo context available."
    ∧ (generateAnswer ⟨none, true, Except.ok "x"⟩ "q"
        [⟨"", ⟨none, none, none⟩, none⟩] "m").answer ≠
      "LLM not configured. Returning top document excerpts concatenated below.\n\n" := by
  decide

/-- C8 (amended): whenever the generation capability is unavailable (no
truthy credential, client library unimportable, or remote call raising),
`generate_answer` still returns: `model` is `"fallback"`; the answer is
the respective fixed explanatory prefix followed by the budgeted chunk
contents joined by the horizontal-rule marker — except that an empty
joined string (in particular an empty budgeted list) is replaced by
`"No context available."`; and a remote-call failure carries the error
detail. -/
theorem c8_fallback_answer (env : GenEnv) (query : String)
    (chunks : List RChunk) (model e : String)
    (h : generationUnavailable env) :
    (generateAnswer env query chunks model).model = "fallback"
    ∧ (generateAnswer env query chunks model).answer =
        fallbackHeader env ++
          orNoContext (joinContents (contextUsed env query chunks))
    ∧ (pyTruthy env.apiKey = true → env.importOk = true →
        env.callResult = Except.error e →
        (generateAnswer env query chunks model).error = some e)
    ∧ (chunks = [] →
        containsSub (generateAnswer env query chunks model).answer
          "No context available.") := by
  by_cases h1 : pyTruthy env.apiKey = false
  · have hg : generateAnswer env query chunks model =
        { answer := "LLM not configured. Returning top document excerpts concatenated below.\n\n"
            ++ orNoContext (joinContents (contextUsed env query chunks)),
          sources := chunks.map resolveSource, model := "fallback",
          error := none } := by
      unfold generateAnswer
      rw [if_pos h1]
    refine ⟨by rw [hg], ?_, ?_, ?_⟩
    · rw [hg]
      unfold fallbackHeader
      rw [if_pos h1]
    · intro ht _ _
      rw [h1] at ht
      exact Bool.noConfusion ht
    · intro hchunks
      subst hchunks
      have hctx : contextUsed env query [] = [] := by
        unfold contextUsed
        rw [if_pos h1]
        rfl
      rw [hg, hctx]
      exact ⟨"LLM not configured. Returning top document excerpts concatenated below.\n\n",
        "", (String.append_empty _).symm⟩
  rw [Bool.not_eq_false] at h1
  by_cases h2 : env.importOk = false
  · have hg : generateAnswer env query chunks model =
        { answer := "OpenAI client library not available. Returning concatenated excerpts.\n\n"
            ++ orNoContext (joinContents (contextUsed env query chunks)),
          sources := chunks.map resolveSource, model := "fallback",
          error := none } := by
      unfold generateAnswer
      rw [if_neg (by rw [h1]; exact Bool.noConfusion), if_pos h2]
    refine ⟨by rw [hg], ?_, ?_, ?_⟩
    · rw [hg]
      unfold fallbackHeader
      rw [if_neg (by rw [h1]; exact Bool.noConfusion), if_pos h2]
    · intro _ hi _
      rw [h2] at hi
      exact Bool.noConfusion hi
    · intro hchunks
      subst hchunks
      have hctx : contextUsed env query [] = [] := by
        unfold contextUsed
        rw [if_neg (by rw [h1]; exact Bool.noConfusion)]
        have hinner : prepareContextChunks ([] : List RChunk)
            maxCharsContext 10 4000 = [] := rfl
        rw [hinner]
        by_cases h3 : maxCharsContext < buildPromptSystem.length +
            (buildUserPrompt query ([] : List RChunk)).length
        · rw [if_pos h3]
          rfl
        · rw [if_neg h3]
      rw [hg, hctx]
      exact ⟨"OpenAI client library not available. Returning concatenated excerpts.\n\n",
        "", (String.append_empty _).symm⟩
  rw [Bool.not_eq_false] at h2
  have hcall : ∃ e', env.callResult = Except.error e' := by
    rcases h with h | h | h
    · rw [h1] at h
      exact absurd h (by simp)
    · rw [h2] at h
      exact absurd h (by simp)
    · exact h
  obtain ⟨e', he'⟩ := hcall
  have hg : generateAnswer env query chunks model =
      { answer := "OpenAI API call failed. Returning concatenated excerpts.\n\n"
          ++ orNoContext (joinContents (contextUsed env query chunks)),
        sources := chunks.map resolveSource, model := "fallback",
        error := some e' } := by
    unfold generateAnswer
    rw [if_neg (by rw [h1]; exact Bool.noConfusion),
      if_neg (by rw [h2]; exact Bool.noConfusion), he']
  refine ⟨by rw [hg], ?_, ?_, ?_⟩
  · rw [hg]
    unfold fallbackHeader
    rw [if_neg (by rw [h1]; exact Bool.noConfusion),
      if_neg (by rw [h2]; exact Bool.noConfusion)]
  · intro _ _ hce
    rw [he'] at hce
    injection hce with hee
    rw [hg, ← hee]
  · intro hchunks
    subst hchunks
    have hctx : contextUsed env query [] = [] := by
      unfold contextUsed
      rw [if_neg (by rw [h1]; exact Bool.noConfusion)]
      have hinner : prepareContextChunks ([] : List RChunk)
          maxCharsContext 10 4000 = [] := rfl
      rw [hinner]
      by_cases h3 : maxCharsContext < buildPromptSystem.length +
          (buildUserPrompt query ([] : List RChunk)).length
      · rw [if_pos h3]
        rfl
      · rw [if_neg h3]
    rw [hg, hctx]
    exact ⟨"OpenAI API call failed. Returning concatenated excerpts.\n\n",
      "", (String.append_empty _).symm⟩

/-- Witness for the amended C8: with no credential and no retrieved
chunks, the result is a fallback whose answer contains the literal
`"No context available."`. -/
theorem c8_fallback_answer_witness :
    (generateAnswer ⟨none, true, Except.ok "x"⟩ "q" [] "m").model = "fallback"
    ∧ containsSub (generateAnswer ⟨none, true, Except.ok "x"⟩ "q" [] "m").answer
        "No context available." :=
  ⟨(c8_fallback_answer ⟨none, true, Except.ok "x"⟩ "q" [] "m" "e" (Or.inl rfl)).1,
   (c8_fallback_answer ⟨none, true, Except.ok "x"⟩ "q" [] "m" "e" (Or.inl rfl)).2.2.2 rfl⟩

end Chatbot
